/-
Verification development for the tink-link-usb scaler controller.

Shallow embedding of:
  * the RetroTink controller state machine (RetroTink.cpp: power states,
    power-management modes, trigger table, pending command, SVS keep-alive),
  * the inbound-line sanitization loop,
  * the UsbHostSerial 512-byte ring buffer (rxBufferWrite / readLine).

Machine `unsigned long` subtraction (millis arithmetic) is modelled with
explicit wraparound at 2^32.  Transport writes are collected as the list of
framed strings handed to sendData.
-/
import Mathlib

set_option maxHeartbeats 1000000

/-- Wraparound for C `unsigned long` (32-bit on this target). -/
def ULONG_MOD : Nat := 4294967296

/-- Subtraction `a - b` on `unsigned long`: modular subtraction at 2^32. -/
def usub32 (a b : Nat) : Nat := (ULONG_MOD + a - b) % ULONG_MOD

/-- Constant `static const unsigned long BOOT_TIMEOUT_MS = 15000;`. -/
def BOOT_TIMEOUT_MS : Nat := 15000

/-- Constant `static const unsigned long WAKE_RESPONSE_TIMEOUT_MS = 3000;`. -/
def WAKE_RESPONSE_TIMEOUT_MS : Nat := 3000

/-- Constant `static const unsigned long SVS_KEEPALIVE_DELAY_MS = 1000;`. -/
def SVS_KEEPALIVE_DELAY_MS : Nat := 1000

/-- Power-management policy (spec: none / minimal / tracked). -/
inductive PowerManagementMode where
  | OFF
  | SIMPLE
  | FULL
deriving DecidableEq, Repr

/-- RT4K power state as tracked by the controller. -/
inductive RT4KPowerState where
  | UNKNOWN
  | WAKING
  | BOOTING
  | ON
  | SLEEPING
deriving DecidableEq, Repr

/-- Trigger command mode: SVS (indexed switch) or REMOTE (remote emulation). -/
inductive TriggerMode where
  | SVS
  | REMOTE
deriving DecidableEq, Repr

/-- Mapping from a switcher input number to an RT4K profile. -/
structure TriggerMapping where
  switcherInput : Int
  mode : TriggerMode
  profile : Int
  name : String
deriving DecidableEq, Repr

/-- The controller's mutable state (fields of class RetroTink), together with
the transport availability flags: `hasSerial` models `_serial != nullptr`,
`serialConnected` models `_serial->isConnected()`. -/
structure RetroTinkState where
  triggers : List TriggerMapping
  lastCommand : String
  powerMgmtMode : PowerManagementMode
  powerState : RT4KPowerState
  pendingCommand : String
  bootWaitStart : Nat
  lastSvsInput : Int
  svsKeepAliveTime : Nat
  svsKeepAlivePending : Bool
  hasSerial : Bool
  serialConnected : Bool
deriving DecidableEq, Repr

/-- Test that `pat` is a prefix of `l` (models Arduino String startsWith on char lists). -/
def isPrefixL : List Char → List Char → Bool
  | [], _ => true
  | _ :: _, [] => false
  | p :: ps, c :: cs => p == c && isPrefixL ps cs

/-- Some suffix of `l` starts with `pat` (models `indexOf(pat) >= 0`). -/
def containsL (l pat : List Char) : Bool :=
  match l with
  | [] => isPrefixL pat []
  | _ :: cs => isPrefixL pat l || containsL cs pat

/-- Arduino `s.indexOf(pat) >= 0`. -/
def stringContains (s pat : String) : Bool := containsL s.data pat.data

/-- Arduino `s.startsWith(pat)`. -/
def startsWithStr (s pat : String) : Bool := isPrefixL pat.data s.data

/-- Function `RetroTink::generateCommand`. -/
def generateCommand (trigger : TriggerMapping) : String :=
  match trigger.mode with
  | .SVS => "SVS NEW INPUT=" ++ toString trigger.profile
  | .REMOTE => "remote prof" ++ toString trigger.profile

/-- Function `RetroTink::sendCommand`: records the last command and, when a connected
transport exists, emits the CR-framed string; returns the emitted writes. -/
def sendCommand (s : RetroTinkState) (command : String) : RetroTinkState × List String :=
  let s1 := { s with lastCommand := command }
  if s1.hasSerial ∧ s1.serialConnected then
    (s1, ["\r" ++ command ++ "\r"])
  else
    (s1, [])

/-- Function `RetroTink::findTrigger`: first trigger whose switcherInput matches. -/
def findTrigger (triggers : List TriggerMapping) (input : Int) : Option TriggerMapping :=
  match triggers with
  | [] => none
  | t :: rest => if t.switcherInput = input then some t else findTrigger rest input

/-- Function `RetroTink::onSwitcherInputChange` (RetroTink.cpp lines 118-232).
`now` is the value `millis()` returns during this call. -/
def onSwitcherInputChange (s : RetroTinkState) (now : Nat) (input : Int) :
    RetroTinkState × List String :=
  match findTrigger s.triggers input with
  | none => (s, [])
  | some trigger =>
    let command := generateCommand trigger
    if s.powerMgmtMode = .OFF then
      -- OFF mode: no power management, send immediately
      let r := sendCommand s command
      let s2 :=
        if trigger.mode = .SVS then
          { r.1 with lastSvsInput := trigger.profile, svsKeepAliveTime := now,
                     svsKeepAlivePending := true }
        else r.1
      (s2, r.2)
    else if s.powerMgmtMode = .SIMPLE then
      if s.powerState = .UNKNOWN then
        -- first input change: send pwr on and wait for boot
        let r := sendCommand s "pwr on"
        let s2 := { r.1 with powerState := .BOOTING, pendingCommand := command,
                             bootWaitStart := now }
        let s3 :=
          if trigger.mode = .SVS then
            { s2 with lastSvsInput := trigger.profile, svsKeepAlivePending := false }
          else s2
        (s3, r.2)
      else if s.powerState = .ON then
        let r := sendCommand s command
        let s2 :=
          if trigger.mode = .SVS then
            { r.1 with lastSvsInput := trigger.profile, svsKeepAliveTime := now,
                       svsKeepAlivePending := true }
          else r.1
        (s2, r.2)
      else if s.powerState = .BOOTING then
        -- still waiting for initial boot: replace pending command
        let s1 := { s with pendingCommand := command }
        let s2 :=
          if trigger.mode = .SVS then
            { s1 with lastSvsInput := trigger.profile, svsKeepAlivePending := false }
          else s1
        (s2, [])
      else (s, [])
    else
      -- FULL mode: complete power state tracking via serial messages
      if s.hasSerial = true ∧ s.powerState = .SLEEPING then
        let r := sendCommand s "pwr on"
        let s2 := { r.1 with powerState := .BOOTING, pendingCommand := command,
                             bootWaitStart := now }
        let s3 :=
          if trigger.mode = .SVS then
            { s2 with lastSvsInput := trigger.profile, svsKeepAlivePending := false }
          else s2
        (s3, r.2)
      else if s.hasSerial = true ∧ s.powerState = .UNKNOWN then
        let r := sendCommand s "pwr on"
        let s2 := { r.1 with powerState := .WAKING, pendingCommand := command,
                             bootWaitStart := now }
        let s3 :=
          if trigger.mode = .SVS then
            { s2 with lastSvsInput := trigger.profile, svsKeepAlivePending := false }
          else s2
        (s3, r.2)
      else
        -- fall-through: send command directly
        let r := sendCommand s command
        let s2 :=
          if trigger.mode = .SVS then
            { r.1 with lastSvsInput := trigger.profile, svsKeepAliveTime := now,
                       svsKeepAlivePending := true }
          else r.1
        (s2, r.2)

/-- The sanitization loop body of `RetroTink::processReceivedLine`
(lines 299-308): `char` is signed on this target, so bytes ≥ 0x80 read as
negative and fail `c >= 0x20`. -/
def sanitizeByte (b : Nat) : Nat :=
  let c : Int := if b < 128 then (b : Int) else (b : Int) - 256
  if 0x20 ≤ c ∧ c < 0x7F then b else 63

/-- Sanitized copy of an inbound line (byte list), as built before logging. -/
def sanitizeLine (line : List Nat) : List Nat := line.map sanitizeByte

/-- Function `RetroTink::processReceivedLine` (state effects; the sanitized copy feeds
only the log and is modelled by `sanitizeLine`). -/
def processReceivedLine (s : RetroTinkState) (now : Nat) (line : String) :
    RetroTinkState × List String :=
  if line.length = 0 then (s, [])
  else if stringContains line "Powering Up" then
    if s.powerState = .WAKING then
      ({ s with powerState := .BOOTING }, [])
    else if s.powerState ≠ .BOOTING then
      ({ s with powerState := .BOOTING, bootWaitStart := now }, [])
    else (s, [])
  else if stringContains line "[MCU] Boot Sequence Complete" then
    let prevState := s.powerState
    let s1 := { s with powerState := .ON }
    if (prevState = .BOOTING ∨ prevState = .WAKING) ∧ s1.pendingCommand.length > 0 then
      let r := sendCommand s1 s1.pendingCommand
      let s3 :=
        if startsWithStr r.1.pendingCommand "SVS NEW INPUT=" then
          { r.1 with svsKeepAliveTime := now, svsKeepAlivePending := true }
        else r.1
      ({ s3 with pendingCommand := "", bootWaitStart := 0 }, r.2)
    else (s1, [])
  else if stringContains line "Power Off" ∨ stringContains line "Entering Sleep" then
    ({ s with powerState := .SLEEPING }, [])
  else (s, [])

/-- The pending-command flush block shared by the wake-response and boot
timeout branches of `RetroTink::processPendingOperations` (lines 380-390 and
402-412): send the pending command if non-empty, arm the SVS keep-alive when
it is an SVS command, and clear the pending slot. -/
def flushPending (s : RetroTinkState) (now : Nat) : RetroTinkState × List String :=
  if 0 < s.pendingCommand.length then
    let rx := sendCommand s s.pendingCommand
    let sy :=
      if startsWithStr rx.1.pendingCommand "SVS NEW INPUT=" then
        { rx.1 with svsKeepAliveTime := now, svsKeepAlivePending := true }
      else rx.1
    ({ sy with pendingCommand := "" }, rx.2)
  else (s, [])

/-- Wake-response timeout block of `processPendingOperations` (lines 373-394). -/
def wakeTimeoutBlock (s : RetroTinkState) (now : Nat) : RetroTinkState × List String :=
  if s.powerState = .WAKING ∧ 0 < s.bootWaitStart ∧
      usub32 now s.bootWaitStart ≥ WAKE_RESPONSE_TIMEOUT_MS then
    let r := flushPending { s with powerState := .ON } now
    ({ r.1 with bootWaitStart := 0 }, r.2)
  else (s, [])

/-- Boot timeout block of `processPendingOperations` (lines 397-420). -/
def bootTimeoutBlock (s : RetroTinkState) (now : Nat) : RetroTinkState × List String :=
  if s.powerState = .BOOTING ∧ 0 < s.bootWaitStart ∧
      usub32 now s.bootWaitStart ≥ BOOT_TIMEOUT_MS then
    let r := flushPending s now
    let ps := if r.1.powerMgmtMode = .SIMPLE then RT4KPowerState.ON else RT4KPowerState.UNKNOWN
    ({ r.1 with bootWaitStart := 0, powerState := ps }, r.2)
  else (s, [])

/-- SVS keep-alive block of `processPendingOperations` (lines 423-428). -/
def keepAliveBlock (s : RetroTinkState) (now : Nat) : RetroTinkState × List String :=
  if s.svsKeepAlivePending = true ∧ usub32 now s.svsKeepAliveTime ≥ SVS_KEEPALIVE_DELAY_MS then
    let keepAlive := "SVS CURRENT INPUT=" ++ toString s.lastSvsInput
    let rC := sendCommand s keepAlive
    ({ rC.1 with svsKeepAlivePending := false }, rC.2)
  else (s, [])

/-- Function `RetroTink::processPendingOperations` (lines 369-429): wake-response
timeout, boot timeout, SVS keep-alive - in that order, each on the state the
previous block produced. -/
def processPendingOperations (s : RetroTinkState) (now : Nat) : RetroTinkState × List String :=
  let rA := wakeTimeoutBlock s now
  let rB := bootTimeoutBlock rA.1 now
  let rC := keepAliveBlock rB.1 now
  (rC.1, rA.2 ++ rB.2 ++ rC.2)

/-- Controller state after the constructor and `configure` with the given
policy string semantics (off → ON, otherwise UNKNOWN), trigger table, and
transport flags. -/
def initialState (mode : PowerManagementMode) (triggers : List TriggerMapping)
    (hasSerial connected : Bool) : RetroTinkState :=
  { triggers := triggers
    lastCommand := ""
    powerMgmtMode := mode
    powerState := if mode = .OFF then .ON else .UNKNOWN
    pendingCommand := ""
    bootWaitStart := 0
    lastSvsInput := 0
    svsKeepAliveTime := 0
    svsKeepAlivePending := false
    hasSerial := hasSerial
    serialConnected := connected }

/-- An externally visible event hitting the controller: a switcher
input-change callback, a complete received line, or one `update()` tick
(modelling `processPendingOperations`; `processIncomingData` is covered by
explicit `line` events).  Each carries the `millis()` value at that moment. -/
inductive RTEvent where
  | inputChange (now : Nat) (input : Int)
  | line (now : Nat) (text : String)
  | tick (now : Nat)
deriving DecidableEq, Repr

/-- One event step of the controller. -/
def step (s : RetroTinkState) : RTEvent → RetroTinkState × List String
  | .inputChange now input => onSwitcherInputChange s now input
  | .line now text => processReceivedLine s now text
  | .tick now => processPendingOperations s now

/-- Run a list of events, accumulating all transport writes in order. -/
def run (s : RetroTinkState) : List RTEvent → RetroTinkState × List String
  | [] => (s, [])
  | e :: rest =>
    let r1 := step s e
    let r2 := run r1.1 rest
    (r2.1, r1.2 ++ r2.2)

/-- Constant `static const size_t USB_RX_BUFFER_SIZE = 512;`. -/
def USB_RX_BUFFER_SIZE : Nat := 512

/-- A byte is a line terminator: `'\n'` or `'\r'`. -/
def isTermB (b : Nat) : Bool := b == 10 || b == 13

/-- Receive side of `UsbHostSerial`: the circular byte buffer and its head
(write) and tail (read) indices. -/
structure UsbHostSerialState where
  rxBuffer : Nat → Nat
  rxHead : Nat
  rxTail : Nat

/-- Function `UsbHostSerial::rxBufferWrite`: append one byte, advancing the tail past
the oldest byte when the buffer is full. -/
def rxBufferWrite (s : UsbHostSerialState) (byte : Nat) : UsbHostSerialState :=
  let nextHead := (s.rxHead + 1) % USB_RX_BUFFER_SIZE
  let tail1 := if nextHead = s.rxTail then (s.rxTail + 1) % USB_RX_BUFFER_SIZE else s.rxTail
  { rxBuffer := fun i => if i = s.rxHead then byte else s.rxBuffer i
    rxHead := nextHead
    rxTail := tail1 }

/-- Function `UsbHostSerial::available`. -/
def available (s : UsbHostSerialState) : Nat :=
  if s.rxHead ≥ s.rxTail then s.rxHead - s.rxTail
  else USB_RX_BUFFER_SIZE - s.rxTail + s.rxHead

/-- The bytes logically stored in the ring, starting at position `p`,
for `n` steps (wrapping modulo the buffer size). -/
def ringList (buf : Nat → Nat) (p n : Nat) : List Nat :=
  (List.range n).map (fun i => buf ((p + i) % USB_RX_BUFFER_SIZE))

/-- The buffered bytes in arrival order (tail to head). -/
def contents (s : UsbHostSerialState) : List Nat :=
  ringList s.rxBuffer s.rxTail (available s)

/-- The scan loop of `UsbHostSerial::readLine`: walk from `pos` towards
`rxHead` looking for a terminator.  The C loop's trip count is bounded by
the buffer size, which serves as structural fuel. -/
def scanTerm (buf : Nat → Nat) (head pos fuel : Nat) : Bool :=
  match fuel with
  | 0 => false
  | fuel + 1 =>
    if pos = head then false
    else if isTermB (buf pos) then true
    else scanTerm buf head ((pos + 1) % USB_RX_BUFFER_SIZE) fuel

/-- The inner skip loop of `readLine`: consume the run of consecutive
CR/LF terminators following the first one. -/
def skipTerms (buf : Nat → Nat) (head tail fuel : Nat) : Nat :=
  match fuel with
  | 0 => tail
  | fuel + 1 =>
    if tail = head then tail
    else if isTermB (buf tail) then skipTerms buf head ((tail + 1) % USB_RX_BUFFER_SIZE) fuel
    else tail

/-- The read loop of `readLine`: pop bytes into the line until the first
terminator, then skip the run of terminators; returns the line and the new
tail index. -/
def readChars (buf : Nat → Nat) (head tail : Nat) (acc : List Nat) (fuel : Nat) :
    List Nat × Nat :=
  match fuel with
  | 0 => (acc, tail)
  | fuel + 1 =>
    if tail = head then (acc, tail)
    else
      let ch := buf tail
      let tail1 := (tail + 1) % USB_RX_BUFFER_SIZE
      if isTermB ch then (acc, skipTerms buf head tail1 fuel)
      else readChars buf head tail1 (acc ++ [ch]) fuel

/-- Function `UsbHostSerial::readLine`: `none` when no terminated line is buffered,
otherwise the line's bytes and the state with the consumed tail. -/
def readLine (s : UsbHostSerialState) : Option (List Nat) × UsbHostSerialState :=
  if scanTerm s.rxBuffer s.rxHead s.rxTail USB_RX_BUFFER_SIZE then
    let r := readChars s.rxBuffer s.rxHead s.rxTail [] USB_RX_BUFFER_SIZE
    (some r.1, { s with rxTail := r.2 })
  else (none, s)

/-- Number of buffered positions from `p` forward to `h` around the ring. -/
def ringDist (p h : Nat) : Nat := (h + USB_RX_BUFFER_SIZE - p) % USB_RX_BUFFER_SIZE

/-- Remote-emulation trigger: switcher input 1 → profile 3. -/
def trigRemote3 : TriggerMapping :=
  { switcherInput := 1, mode := .REMOTE, profile := 3, name := "console1" }

/-- Remote-emulation trigger: switcher input 2 → profile 5. -/
def trigRemote5 : TriggerMapping :=
  { switcherInput := 2, mode := .REMOTE, profile := 5, name := "console2" }

/-- Indexed-switch trigger: switcher input 1 → profile 3. -/
def trigSvs3 : TriggerMapping :=
  { switcherInput := 1, mode := .SVS, profile := 3, name := "console1" }

/-- Indexed-switch trigger: switcher input 2 → profile 5. -/
def trigSvs5 : TriggerMapping :=
  { switcherInput := 2, mode := .SVS, profile := 5, name := "console2" }

/-- Tracked-policy controller with two remote triggers, connected transport. -/
def fullStart2 : RetroTinkState := initialState .FULL [trigRemote3, trigRemote5] true true

/-- Tracked-policy controller with one remote trigger, connected transport. -/
def fullStart1 : RetroTinkState := initialState .FULL [trigRemote3] true true

/-- Tracked-policy controller with two indexed-switch triggers. -/
def fullStartSvs : RetroTinkState := initialState .FULL [trigSvs3, trigSvs5] true true

/-- Tracked-policy controller with one indexed-switch trigger. -/
def c3Start : RetroTinkState := initialState .FULL [trigSvs3] true true

/-- Minimal-policy controller mid-boot with a queued command. -/
def bootingSimple : RetroTinkState :=
  { initialState .SIMPLE [trigRemote5] true true with
      powerState := .BOOTING, pendingCommand := "remote prof3", bootWaitStart := 5 }

/-- Tracked-policy controller already booting (deadline at 500 ms). -/
def bootingFull : RetroTinkState :=
  { initialState .FULL [] true true with powerState := .BOOTING, bootWaitStart := 500 }

/-- Minimal-policy controller sleeping after a power-off line. -/
def sleepingSimple : RetroTinkState :=
  { initialState .SIMPLE [trigRemote3] true true with powerState := .SLEEPING }

/-- Tracked-policy controller in ON with an armed keep-alive for profile 7. -/
def keepAliveState : RetroTinkState :=
  { initialState .FULL [trigSvs5] true true with
      powerState := .ON, svsKeepAlivePending := true, svsKeepAliveTime := 2,
      lastSvsInput := 7 }

/-- Policy-none controller with one indexed-switch trigger. -/
def offStart : RetroTinkState := initialState .OFF [trigSvs3] true true

/-- A full ring buffer (tail one ahead of head) holding a terminator at
index 4, otherwise the byte 65. -/
def usbFullState : UsbHostSerialState :=
  { rxBuffer := fun i => if i = 4 then 13 else 65, rxHead := 2, rxTail := 3 }

theorem isPrefixL_self_append (l r : List Char) : isPrefixL l (l ++ r) = true := by
  induction l with
  | nil => rfl
  | cons a as ih => simp [isPrefixL, ih]

theorem startsWithStr_svs (r : String) :
    startsWithStr ("SVS NEW INPUT=" ++ r) "SVS NEW INPUT=" = true := by
  have hd : ("SVS NEW INPUT=" ++ r).data = "SVS NEW INPUT=".data ++ r.data := rfl
  rw [startsWithStr, hd]
  exact isPrefixL_self_append _ _

theorem startsWithStr_remote_not_svs (r : String) :
    startsWithStr ("remote prof" ++ r) "SVS NEW INPUT=" = false := by
  have hd : ("remote prof" ++ r).data = 'r' :: ("emote prof".data ++ r.data) := rfl
  rw [startsWithStr, hd]
  have hp : "SVS NEW INPUT=".data = 'S' :: "VS NEW INPUT=".data := rfl
  rw [hp]
  simp [isPrefixL]

theorem usub32_self (a : Nat) : usub32 a a = 0 := by
  unfold usub32 ULONG_MOD
  omega

theorem string_len_zero {s : String} (h : s.length = 0) : s = "" := by
  cases s with
  | mk data =>
    cases data with
    | nil => rfl
    | cons a as => simp [String.length] at h

theorem flushPending_clears (s : RetroTinkState) (now : Nat) :
    (flushPending s now).1.pendingCommand = "" := by
  simp only [flushPending, sendCommand]
  split_ifs with h <;> simp_all
  exact string_len_zero (by omega)

theorem keepAliveBlock_preserves (s : RetroTinkState) (now : Nat) :
    (keepAliveBlock s now).1.powerState = s.powerState ∧
    (keepAliveBlock s now).1.pendingCommand = s.pendingCommand ∧
    (keepAliveBlock s now).1.bootWaitStart = s.bootWaitStart := by
  simp only [keepAliveBlock, sendCommand]
  split_ifs <;> simp

theorem wakeTimeoutBlock_inv (s : RetroTinkState) (now : Nat)
    (hinv : s.powerState = .UNKNOWN → s.pendingCommand = "") :
    (wakeTimeoutBlock s now).1.powerState = .UNKNOWN →
      (wakeTimeoutBlock s now).1.pendingCommand = "" := by
  simp only [wakeTimeoutBlock]
  split_ifs with h
  · intro _
    simp [flushPending_clears]
  · exact hinv

theorem bootTimeoutBlock_inv (s : RetroTinkState) (now : Nat)
    (hinv : s.powerState = .UNKNOWN → s.pendingCommand = "") :
    (bootTimeoutBlock s now).1.powerState = .UNKNOWN →
      (bootTimeoutBlock s now).1.pendingCommand = "" := by
  simp only [bootTimeoutBlock]
  split_ifs with h h2
  · intro _
    simp [flushPending_clears]
  · intro _
    simp [flushPending_clears]
  · exact hinv

theorem stepUnknownEmpty (s : RetroTinkState) (e : RTEvent)
    (hinv : s.powerState = .UNKNOWN → s.pendingCommand = "") :
    (step s e).1.powerState = .UNKNOWN → (step s e).1.pendingCommand = "" := by
  cases e with
  | inputChange now input =>
    simp only [step]
    unfold onSwitcherInputChange
    cases hft : findTrigger s.triggers input with
    | none => simpa using hinv
    | some t =>
      simp only [sendCommand]
      split_ifs <;> intro hU <;> simp_all
  | line now text =>
    simp only [step]
    unfold processReceivedLine
    simp only [sendCommand]
    split_ifs <;> intro hU <;> simp_all
  | tick now =>
    simp only [step]
    unfold processPendingOperations
    intro hU
    have hk := keepAliveBlock_preserves (bootTimeoutBlock (wakeTimeoutBlock s now).1 now).1 now
    simp only at hU ⊢
    rw [hk.2.1]
    rw [hk.1] at hU
    exact bootTimeoutBlock_inv _ now (wakeTimeoutBlock_inv s now hinv) hU

/-- Claim C2 (amended): in every state reachable by input-change events,
received lines and ticks from a state satisfying it, power state unknown
implies an empty pending command.  The claim's stronger form - pending only
while waking or booting - fails (see the counterexample): a power-off line
keeps the pending command while moving to sleeping. -/
theorem C2_unknown_implies_no_pending (s : RetroTinkState) (evts : List RTEvent)
    (hinv : s.powerState = .UNKNOWN → s.pendingCommand = "") :
    (run s evts).1.powerState = .UNKNOWN → (run s evts).1.pendingCommand = "" := by
  induction evts generalizing s with
  | nil => simpa [run] using hinv
  | cons e rest ih =>
    simp only [run]
    exact ih (step s e).1 (stepUnknownEmpty s e hinv)

/-- Claim C6: when the state is booting and 15000 ms have elapsed without
the boot-complete marker, the next tick sends the pending command (if any)
to the transport, clears the pending slot and the deadline, and sets the
state to on under policy minimal and to unknown under policy tracked. -/
theorem C6_boot_timeout (s : RetroTinkState) (now : Nat)
    (hstate : s.powerState = .BOOTING) (hstart : 0 < s.bootWaitStart)
    (helapsed : usub32 now s.bootWaitStart ≥ BOOT_TIMEOUT_MS)
    (hser : s.hasSerial = true) (hconn : s.serialConnected = true)
    (hka : s.svsKeepAlivePending = false)
    (_hmode : s.powerMgmtMode = .SIMPLE ∨ s.powerMgmtMode = .FULL) :
    (processPendingOperations s now).1.pendingCommand = "" ∧
    (processPendingOperations s now).1.bootWaitStart = 0 ∧
    (processPendingOperations s now).1.powerState =
      (if s.powerMgmtMode = .SIMPLE then .ON else .UNKNOWN) ∧
    (processPendingOperations s now).2 =
      (if 0 < s.pendingCommand.length then ["\r" ++ s.pendingCommand ++ "\r"] else []) := by
  have h0 : usub32 now now = 0 := usub32_self now
  simp [processPendingOperations, wakeTimeoutBlock, bootTimeoutBlock, keepAliveBlock,
    flushPending, sendCommand, hstate, hstart, helapsed, hser, hconn, h0, hka,
    SVS_KEEPALIVE_DELAY_MS]
  split_ifs <;> simp_all <;> exact string_len_zero (by omega)

/-- Claim C7: under policy none with a connected transport, a matched
onInputChange produces exactly one transport write, the CR-framed command,
which is "SVS NEW INPUT=<profile>" for an indexed-switch trigger and
"remote prof<profile>" for a remote-emulation trigger. -/
theorem C7_policy_none_single_framed_write (s : RetroTinkState) (now : Nat) (input : Int)
    (t : TriggerMapping) (hmode : s.powerMgmtMode = .OFF)
    (hser : s.hasSerial = true) (hconn : s.serialConnected = true)
    (ht : findTrigger s.triggers input = some t) :
    (onSwitcherInputChange s now input).2 = ["\r" ++ generateCommand t ++ "\r"] ∧
    (t.mode = .SVS → generateCommand t = "SVS NEW INPUT=" ++ toString t.profile) ∧
    (t.mode = .REMOTE → generateCommand t = "remote prof" ++ toString t.profile) := by
  refine ⟨?_, ?_, ?_⟩
  · unfold onSwitcherInputChange
    rw [ht]
    simp [hmode, sendCommand, hser, hconn]
  · intro hm; simp [generateCommand, hm]
  · intro hm; simp [generateCommand, hm]

/-- Claim C8: sanitization replaces every byte outside [0x20,0x7E] with
the byte 63 (the character for a question mark) and keeps every byte inside
that range, preserving the length of the line. -/
theorem C8_sanitize_spec (line : List Nat) (hb : ∀ b ∈ line, b < 256) :
    (sanitizeLine line).length = line.length ∧
    sanitizeLine line = line.map (fun b => if 0x20 ≤ b ∧ b ≤ 0x7E then b else 63) := by
  constructor
  · simp [sanitizeLine]
  · unfold sanitizeLine
    apply List.map_congr_left
    intro b hbmem
    have hb256 := hb b hbmem
    simp only [sanitizeByte]
    split_ifs <;> omega

/-- Claim C10: under policy minimal in state sleeping, a matched
onInputChange is a complete no-op - no write, no pending command, no wake,
state and every other field unchanged. -/
theorem C10_sleeping_simple_noop (s : RetroTinkState) (now : Nat) (input : Int)
    (t : TriggerMapping) (hmode : s.powerMgmtMode = .SIMPLE)
    (hstate : s.powerState = .SLEEPING) (ht : findTrigger s.triggers input = some t) :
    onSwitcherInputChange s now input = (s, []) := by
  unfold onSwitcherInputChange
  rw [ht]
  simp [hmode, hstate]

/-- Claim C4, counterexample: with the state already booting (deadline 500),
a line containing "Powering Up" at time 9999 leaves the boot-wait deadline
at 500 instead of resetting it to 9999, contradicting the claim that every
state other than waking gets a freshly reset deadline. -/
theorem C4_counterexample :
    (processReceivedLine bootingFull 9999 "Powering Up").1.powerState = .BOOTING ∧
    (processReceivedLine bootingFull 9999 "Powering Up").1.bootWaitStart = 500 ∧
    ¬ (processReceivedLine bootingFull 9999 "Powering Up").1.bootWaitStart = 9999 := by
  decide

/-- Claim C4 (amended): on a line containing "Powering Up", waking becomes
booting keeping pending command and deadline; an already booting state is
left completely unchanged (deadline kept, not reset); any other state
becomes booting with a freshly reset deadline. -/
theorem C4_powering_up_transitions (s : RetroTinkState) (now : Nat) (line : String)
    (hne : line.length ≠ 0) (hpu : stringContains line "Powering Up" = true) :
    (s.powerState = .WAKING →
      processReceivedLine s now line = ({ s with powerState := .BOOTING }, [])) ∧
    (s.powerState = .BOOTING → processReceivedLine s now line = (s, [])) ∧
    (s.powerState ≠ .WAKING → s.powerState ≠ .BOOTING →
      processReceivedLine s now line =
        ({ s with powerState := .BOOTING, bootWaitStart := now }, [])) := by
  refine ⟨?_, ?_, ?_⟩
  · intro h1
    unfold processReceivedLine
    simp [hne, hpu, h1]
  · intro h1
    unfold processReceivedLine
    simp [hne, hpu, h1]
  · intro h1 h2
    unfold processReceivedLine
    simp [hne, hpu, h1, h2]

/-- Claim C1 (amended): under policy minimal in state booting, a second
matched onInputChange replaces the stored pending command with the new one
and writes nothing; under policy tracked in state waking or booting, the
new command is instead sent to the transport immediately and the previously
queued command stays pending (so under tracked policy the superseded
command still reaches the transport later, contrary to the claim). -/
theorem C1_pending_replacement (s : RetroTinkState) (now : Nat) (input : Int)
    (t : TriggerMapping) (ht : findTrigger s.triggers input = some t) :
    (s.powerMgmtMode = .SIMPLE → s.powerState = .BOOTING →
      (onSwitcherInputChange s now input).1.pendingCommand = generateCommand t ∧
      (onSwitcherInputChange s now input).1.powerState = .BOOTING ∧
      (onSwitcherInputChange s now input).2 = []) ∧
    (s.powerMgmtMode = .FULL → s.hasSerial = true → s.serialConnected = true →
      (s.powerState = .WAKING ∨ s.powerState = .BOOTING) →
      (onSwitcherInputChange s now input).1.pendingCommand = s.pendingCommand ∧
      (onSwitcherInputChange s now input).2 = ["\r" ++ generateCommand t ++ "\r"]) := by
  constructor
  · intro h1 h2
    unfold onSwitcherInputChange
    rw [ht]
    simp [h1, h2]
    split <;> simp
  · intro h1 hser hconn h4
    unfold onSwitcherInputChange
    rw [ht]
    rcases h4 with h4 | h4 <;>
      simp [h1, h4, sendCommand, hser, hconn] <;> split <;> simp

/-- Claim C1, counterexample: under policy tracked, a second input change
at 100 ms while waking does not replace the pending command; the new
command is written immediately and the superseded one ("remote prof3") is
still flushed to the transport at the wake timeout, as the write trace
shows. -/
theorem C1_counterexample :
    (run fullStart2 [.inputChange 5 1, .inputChange 100 2, .tick 3005]).2 =
      ["\rpwr on\r", "\rremote prof5\r", "\rremote prof3\r"] ∧
    (run fullStart2 [.inputChange 5 1, .inputChange 100 2]).1.pendingCommand =
      "remote prof3" := by
  decide

/-- Claim C2, counterexample: a "Power Off" line received while waking with
a queued command moves the state to sleeping without clearing the pending
command, so a non-empty pending command exists while the state is
sleeping. -/
theorem C2_counterexample :
    (run fullStart1 [.inputChange 5 1, .line 100 "Power Off"]).1.powerState = .SLEEPING ∧
    (run fullStart1 [.inputChange 5 1, .line 100 "Power Off"]).1.pendingCommand =
      "remote prof3" := by
  decide

/-- Claim C5, counterexample: two indexed-switch sends 500 ms apart under
policy tracked produce a single keep-alive write (for the second profile);
the first send's own follow-up "SVS CURRENT INPUT=3" never reaches the
transport, so not every indexed-switch send yields exactly one follow-up. -/
theorem C5_counterexample :
    (run fullStartSvs [.line 1 "[MCU] Boot Sequence Complete", .inputChange 10 1,
        .inputChange 510 2, .tick 1010, .tick 1510, .tick 2600]).2 =
      ["\rSVS NEW INPUT=3\r", "\rSVS NEW INPUT=5\r", "\rSVS CURRENT INPUT=5\r"] ∧
    ¬ ("\rSVS CURRENT INPUT=3\r" ∈
        (run fullStartSvs [.line 1 "[MCU] Boot Sequence Complete", .inputChange 10 1,
          .inputChange 510 2, .tick 1010, .tick 1510, .tick 2600]).2) := by
  decide

/-- Claim C5 (amended): the keep-alive timer is one-shot: when armed and
1000 ms have elapsed since arming, a tick emits exactly one
"SVS CURRENT INPUT=<n>" write with the most recently armed profile and
clears the timer; ticks before the deadline or with a cleared timer emit
nothing; an indexed-switch send in state on under policy tracked re-arms
the single timer with its own profile, so a superseded send gets no
follow-up of its own. -/
theorem C5_keepalive_one_shot (s : RetroTinkState) (now : Nat) (input : Int)
    (t : TriggerMapping) (hser : s.hasSerial = true) (hconn : s.serialConnected = true)
    (hstate : s.powerState = .ON) :
    (s.svsKeepAlivePending = true →
      usub32 now s.svsKeepAliveTime ≥ SVS_KEEPALIVE_DELAY_MS →
      (processPendingOperations s now).2 =
        ["\r" ++ ("SVS CURRENT INPUT=" ++ toString s.lastSvsInput) ++ "\r"] ∧
      (processPendingOperations s now).1.svsKeepAlivePending = false) ∧
    (s.svsKeepAlivePending = true →
      usub32 now s.svsKeepAliveTime < SVS_KEEPALIVE_DELAY_MS →
      processPendingOperations s now = (s, [])) ∧
    (s.svsKeepAlivePending = false → processPendingOperations s now = (s, [])) ∧
    (s.powerMgmtMode = .FULL → t.mode = .SVS → findTrigger s.triggers input = some t →
      (onSwitcherInputChange s now input).1.svsKeepAlivePending = true ∧
      (onSwitcherInputChange s now input).1.svsKeepAliveTime = now ∧
      (onSwitcherInputChange s now input).1.lastSvsInput = t.profile ∧
      (onSwitcherInputChange s now input).2 = ["\r" ++ generateCommand t ++ "\r"]) := by
  refine ⟨?_, ?_, ?_, ?_⟩
  · intro hp hd
    simp [processPendingOperations, wakeTimeoutBlock, bootTimeoutBlock, keepAliveBlock,
      hstate, hp, hd, sendCommand, hser, hconn]
  · intro hp hd
    simp [processPendingOperations, wakeTimeoutBlock, bootTimeoutBlock, keepAliveBlock,
      hstate, hp, Nat.not_le.mpr hd]
  · intro hp
    simp [processPendingOperations, wakeTimeoutBlock, bootTimeoutBlock, keepAliveBlock,
      hstate, hp]
  · intro hmode hsvs ht
    unfold onSwitcherInputChange
    rw [ht]
    simp [hmode, hstate, hsvs, sendCommand, hser, hconn]

/-- Claim C3: under policy tracked starting in state unknown with a
connected transport, a matched onInputChange followed by ticks through
3000 ms with no peer output produces exactly two transport writes - the
framed "pwr on" and then the framed queued trigger command - and the
controller ends in state on. -/
theorem C3_tracked_unknown_wake_flush (triggers : List TriggerMapping) (input : Int)
    (t : TriggerMapping) (ht : findTrigger triggers input = some t) :
    (run (initialState .FULL triggers true true)
        [.inputChange 5 input, .tick 1005, .tick 2005, .tick 3005]).2 =
      ["\r" ++ "pwr on" ++ "\r", "\r" ++ generateCommand t ++ "\r"] ∧
    (run (initialState .FULL triggers true true)
        [.inputChange 5 input, .tick 1005, .tick 2005, .tick 3005]).1.powerState = .ON := by
  have hu1 : usub32 1005 5 = 1000 := rfl
  have hu2 : usub32 2005 5 = 2000 := rfl
  have hu3 : usub32 3005 5 = 3000 := rfl
  have hu4 : usub32 3005 3005 = 0 := rfl
  cases ht0 : t.mode with
  | SVS =>
    have hcmd : generateCommand t = "SVS NEW INPUT=" ++ toString t.profile := by
      simp [generateCommand, ht0]
    have hlen : ("SVS NEW INPUT=").length = 14 := rfl
    have h1 : step (initialState .FULL triggers true true) (.inputChange 5 input) =
        (⟨triggers, "pwr on", .FULL, .WAKING, "SVS NEW INPUT=" ++ toString t.profile,
          5, t.profile, 0, false, true, true⟩, ["\r" ++ "pwr on" ++ "\r"]) := by
      simp [step, onSwitcherInputChange, ht, initialState, sendCommand, hcmd, ht0]
    have h2 : step (⟨triggers, "pwr on", .FULL, .WAKING,
        "SVS NEW INPUT=" ++ toString t.profile, 5, t.profile, 0, false, true, true⟩ :
          RetroTinkState) (.tick 1005) =
        (⟨triggers, "pwr on", .FULL, .WAKING, "SVS NEW INPUT=" ++ toString t.profile,
          5, t.profile, 0, false, true, true⟩, []) := by
      simp [step, processPendingOperations, wakeTimeoutBlock, bootTimeoutBlock,
        keepAliveBlock, hu1, WAKE_RESPONSE_TIMEOUT_MS]
    have h3 : step (⟨triggers, "pwr on", .FULL, .WAKING,
        "SVS NEW INPUT=" ++ toString t.profile, 5, t.profile, 0, false, true, true⟩ :
          RetroTinkState) (.tick 2005) =
        (⟨triggers, "pwr on", .FULL, .WAKING, "SVS NEW INPUT=" ++ toString t.profile,
          5, t.profile, 0, false, true, true⟩, []) := by
      simp [step, processPendingOperations, wakeTimeoutBlock, bootTimeoutBlock,
        keepAliveBlock, hu2, WAKE_RESPONSE_TIMEOUT_MS]
    have h4 : step (⟨triggers, "pwr on", .FULL, .WAKING,
        "SVS NEW INPUT=" ++ toString t.profile, 5, t.profile, 0, false, true, true⟩ :
          RetroTinkState) (.tick 3005) =
        (⟨triggers, "SVS NEW INPUT=" ++ toString t.profile, .FULL, .ON, "",
          0, t.profile, 3005, true, true, true⟩,
         ["\r" ++ ("SVS NEW INPUT=" ++ toString t.profile) ++ "\r"]) := by
      simp [step, processPendingOperations, wakeTimeoutBlock, bootTimeoutBlock,
        keepAliveBlock, flushPending, sendCommand, hu3, hu4, hlen,
        WAKE_RESPONSE_TIMEOUT_MS, BOOT_TIMEOUT_MS, SVS_KEEPALIVE_DELAY_MS,
        startsWithStr_svs]
    simp [run, h1, h2, h3, h4, hcmd]
  | REMOTE =>
    have hcmd : generateCommand t = "remote prof" ++ toString t.profile := by
      simp [generateCommand, ht0]
    have hlen : ("remote prof").length = 11 := rfl
    have h1 : step (initialState .FULL triggers true true) (.inputChange 5 input) =
        (⟨triggers, "pwr on", .FULL, .WAKING, "remote prof" ++ toString t.profile,
          5, 0, 0, false, true, true⟩, ["\r" ++ "pwr on" ++ "\r"]) := by
      simp [step, onSwitcherInputChange, ht, initialState, sendCommand, hcmd, ht0]
    have h2 : step (⟨triggers, "pwr on", .FULL, .WAKING,
        "remote prof" ++ toString t.profile, 5, 0, 0, false, true, true⟩ :
          RetroTinkState) (.tick 1005) =
        (⟨triggers, "pwr on", .FULL, .WAKING, "remote prof" ++ toString t.profile,
          5, 0, 0, false, true, true⟩, []) := by
      simp [step, processPendingOperations, wakeTimeoutBlock, bootTimeoutBlock,
        keepAliveBlock, hu1, WAKE_RESPONSE_TIMEOUT_MS]
    have h3 : step (⟨triggers, "pwr on", .FULL, .WAKING,
        "remote prof" ++ toString t.profile, 5, 0, 0, false, true, true⟩ :
          RetroTinkState) (.tick 2005) =
        (⟨triggers, "pwr on", .FULL, .WAKING, "remote prof" ++ toString t.profile,
          5, 0, 0, false, true, true⟩, []) := by
      simp [step, processPendingOperations, wakeTimeoutBlock, bootTimeoutBlock,
        keepAliveBlock, hu2, WAKE_RESPONSE_TIMEOUT_MS]
    have h4 : step (⟨triggers, "pwr on", .FULL, .WAKING,
        "remote prof" ++ toString t.profile, 5, 0, 0, false, true, true⟩ :
          RetroTinkState) (.tick 3005) =
        (⟨triggers, "remote prof" ++ toString t.profile, .FULL, .ON, "",
          0, 0, 0, false, true, true⟩,
         ["\r" ++ ("remote prof" ++ toString t.profile) ++ "\r"]) := by
      simp [step, processPendingOperations, wakeTimeoutBlock, bootTimeoutBlock,
        keepAliveBlock, flushPending, sendCommand, hu3, hu4, hlen,
        WAKE_RESPONSE_TIMEOUT_MS, BOOT_TIMEOUT_MS, SVS_KEEPALIVE_DELAY_MS,
        startsWithStr_remote_not_svs]
    simp [run, h1, h2, h3, h4, hcmd]

/-- Witness for C1: the amended claim evaluated on a minimal-policy booting controller. -/
theorem C1_pending_replacement_witness :
    (bootingSimple.powerMgmtMode = .SIMPLE → bootingSimple.powerState = .BOOTING →
      (onSwitcherInputChange bootingSimple 50 2).1.pendingCommand =
        generateCommand trigRemote5 ∧
      (onSwitcherInputChange bootingSimple 50 2).1.powerState = .BOOTING ∧
      (onSwitcherInputChange bootingSimple 50 2).2 = []) ∧
    (bootingSimple.powerMgmtMode = .FULL → bootingSimple.hasSerial = true →
      bootingSimple.serialConnected = true →
      (bootingSimple.powerState = .WAKING ∨ bootingSimple.powerState = .BOOTING) →
      (onSwitcherInputChange bootingSimple 50 2).1.pendingCommand =
        bootingSimple.pendingCommand ∧
      (onSwitcherInputChange bootingSimple 50 2).2 =
        ["\r" ++ generateCommand trigRemote5 ++ "\r"]) :=
  C1_pending_replacement bootingSimple 50 2 trigRemote5 (by decide)

/-- Witness for C2: a tracked-policy run through wake, boot confirmation and
boot timeout ends in state unknown, and the invariant yields the empty
pending command there. -/
theorem C2_unknown_implies_no_pending_witness :
    (run fullStart1 [.inputChange 5 1, .line 100 "Powering Up",
        .tick 15105]).1.powerState = .UNKNOWN ∧
    (run fullStart1 [.inputChange 5 1, .line 100 "Powering Up",
        .tick 15105]).1.pendingCommand = "" :=
  ⟨by decide,
    C2_unknown_implies_no_pending fullStart1
      [.inputChange 5 1, .line 100 "Powering Up", .tick 15105] (fun _ => rfl) (by decide)⟩

/-- Witness for C3: the wake-then-flush trace for a concrete indexed-switch trigger. -/
theorem C3_tracked_unknown_wake_flush_witness :
    (run (initialState .FULL [trigSvs3] true true)
        [.inputChange 5 1, .tick 1005, .tick 2005, .tick 3005]).2 =
      ["\r" ++ "pwr on" ++ "\r", "\r" ++ generateCommand trigSvs3 ++ "\r"] ∧
    (run (initialState .FULL [trigSvs3] true true)
        [.inputChange 5 1, .tick 1005, .tick 2005, .tick 3005]).1.powerState = .ON :=
  C3_tracked_unknown_wake_flush [trigSvs3] 1 trigSvs3 (by decide)

/-- Witness for C4: the transition table evaluated on a tracked controller in unknown. -/
theorem C4_powering_up_transitions_witness :
    (fullStart1.powerState = .WAKING →
      processReceivedLine fullStart1 42 "Powering Up" =
        ({ fullStart1 with powerState := .BOOTING }, [])) ∧
    (fullStart1.powerState = .BOOTING →
      processReceivedLine fullStart1 42 "Powering Up" = (fullStart1, [])) ∧
    (fullStart1.powerState ≠ .WAKING → fullStart1.powerState ≠ .BOOTING →
      processReceivedLine fullStart1 42 "Powering Up" =
        ({ fullStart1 with powerState := .BOOTING, bootWaitStart := 42 }, [])) :=
  C4_powering_up_transitions fullStart1 42 "Powering Up" (by decide) (by decide)

/-- Witness for C5: the one-shot keep-alive evaluated on an armed controller at 1002 ms. -/
theorem C5_keepalive_one_shot_witness :
    (keepAliveState.svsKeepAlivePending = true →
      usub32 1002 keepAliveState.svsKeepAliveTime ≥ SVS_KEEPALIVE_DELAY_MS →
      (processPendingOperations keepAliveState 1002).2 =
        ["\r" ++ ("SVS CURRENT INPUT=" ++ toString keepAliveState.lastSvsInput) ++ "\r"] ∧
      (processPendingOperations keepAliveState 1002).1.svsKeepAlivePending = false) ∧
    (keepAliveState.svsKeepAlivePending = true →
      usub32 1002 keepAliveState.svsKeepAliveTime < SVS_KEEPALIVE_DELAY_MS →
      processPendingOperations keepAliveState 1002 = (keepAliveState, [])) ∧
    (keepAliveState.svsKeepAlivePending = false →
      processPendingOperations keepAliveState 1002 = (keepAliveState, [])) ∧
    (keepAliveState.powerMgmtMode = .FULL → trigSvs5.mode = .SVS →
      findTrigger keepAliveState.triggers 2 = some trigSvs5 →
      (onSwitcherInputChange keepAliveState 1002 2).1.svsKeepAlivePending = true ∧
      (onSwitcherInputChange keepAliveState 1002 2).1.svsKeepAliveTime = 1002 ∧
      (onSwitcherInputChange keepAliveState 1002 2).1.lastSvsInput = trigSvs5.profile ∧
      (onSwitcherInputChange keepAliveState 1002 2).2 =
        ["\r" ++ generateCommand trigSvs5 ++ "\r"]) :=
  C5_keepalive_one_shot keepAliveState 1002 2 trigSvs5 rfl rfl rfl

/-- Witness for C6: the boot timeout evaluated at 15005 ms on a minimal-policy boot. -/
theorem C6_boot_timeout_witness :
    (processPendingOperations bootingSimple 15005).1.pendingCommand = "" ∧
    (processPendingOperations bootingSimple 15005).1.bootWaitStart = 0 ∧
    (processPendingOperations bootingSimple 15005).1.powerState =
      (if bootingSimple.powerMgmtMode = .SIMPLE then .ON else .UNKNOWN) ∧
    (processPendingOperations bootingSimple 15005).2 =
      (if 0 < bootingSimple.pendingCommand.length
        then ["\r" ++ bootingSimple.pendingCommand ++ "\r"] else []) :=
  C6_boot_timeout bootingSimple 15005 rfl (by decide) (by decide) rfl rfl rfl
    (Or.inl rfl)

/-- Witness for C7: the single framed write evaluated on a policy-none controller. -/
theorem C7_policy_none_single_framed_write_witness :
    (onSwitcherInputChange offStart 0 1).2 = ["\r" ++ generateCommand trigSvs3 ++ "\r"] ∧
    (trigSvs3.mode = .SVS →
      generateCommand trigSvs3 = "SVS NEW INPUT=" ++ toString trigSvs3.profile) ∧
    (trigSvs3.mode = .REMOTE →
      generateCommand trigSvs3 = "remote prof" ++ toString trigSvs3.profile) :=
  C7_policy_none_single_framed_write offStart 0 1 trigSvs3 rfl rfl rfl (by decide)

/-- Witness for C8: sanitization evaluated on the bytes 5, 65 and 200. -/
theorem C8_sanitize_spec_witness :
    (sanitizeLine [5, 65, 200]).length = ([5, 65, 200] : List Nat).length ∧
    sanitizeLine [5, 65, 200] =
      ([5, 65, 200] : List Nat).map (fun b => if 0x20 ≤ b ∧ b ≤ 0x7E then b else 63) :=
  C8_sanitize_spec [5, 65, 200] (by decide)

/-- Witness for C10: the no-op evaluated on a sleeping minimal-policy controller. -/
theorem C10_sleeping_simple_noop_witness :
    onSwitcherInputChange sleepingSimple 9 1 = (sleepingSimple, []) :=
  C10_sleeping_simple_noop sleepingSimple 9 1 trigRemote3 rfl rfl (by decide)

theorem ringDist_lt (p h : Nat) : ringDist p h < USB_RX_BUFFER_SIZE := by
  unfold ringDist USB_RX_BUFFER_SIZE
  omega

theorem ringDist_zero {p h : Nat} (hp : p < USB_RX_BUFFER_SIZE)
    (hh : h < USB_RX_BUFFER_SIZE) : ringDist p h = 0 ↔ p = h := by
  unfold ringDist USB_RX_BUFFER_SIZE at *
  omega

theorem ringDist_succ {p h : Nat} (hp : p < USB_RX_BUFFER_SIZE)
    (hh : h < USB_RX_BUFFER_SIZE) (hne : p ≠ h) :
    ringDist ((p + 1) % USB_RX_BUFFER_SIZE) h + 1 = ringDist p h := by
  unfold ringDist USB_RX_BUFFER_SIZE at *
  omega

theorem available_eq_ringDist (s : UsbHostSerialState) (hh : s.rxHead < USB_RX_BUFFER_SIZE)
    (ht : s.rxTail < USB_RX_BUFFER_SIZE) : available s = ringDist s.rxTail s.rxHead := by
  unfold available ringDist USB_RX_BUFFER_SIZE at *
  split_ifs <;> omega

theorem ringList_succ (buf : Nat → Nat) (p n : Nat) (hp : p < USB_RX_BUFFER_SIZE) :
    ringList buf p (n + 1) = buf p :: ringList buf ((p + 1) % USB_RX_BUFFER_SIZE) n := by
  unfold ringList
  rw [List.range_succ_eq_map, List.map_cons, List.map_map]
  congr 1
  · rw [Nat.add_zero, Nat.mod_eq_of_lt hp]
  · apply List.map_congr_left
    intro a _
    simp only [Function.comp_apply]
    rw [Nat.mod_add_mod]
    unfold USB_RX_BUFFER_SIZE
    congr 1
    omega

theorem scanTerm_eq_any (buf : Nat → Nat) (head : Nat) (hh : head < USB_RX_BUFFER_SIZE) :
    ∀ n pos fuel, pos < USB_RX_BUFFER_SIZE → ringDist pos head = n → n ≤ fuel →
      scanTerm buf head pos fuel = (ringList buf pos n).any isTermB := by
  intro n
  induction n with
  | zero =>
    intro pos fuel hp hd _
    have hph : pos = head := (ringDist_zero hp hh).mp hd
    cases fuel <;> simp [scanTerm, ringList, hph]
  | succ n ih =>
    intro pos fuel hp hd hf
    have hne : pos ≠ head := by
      intro hcontra
      rw [(ringDist_zero hp hh).mpr hcontra] at hd
      omega
    obtain ⟨k, rfl⟩ : ∃ k, fuel = k + 1 := ⟨fuel - 1, by omega⟩
    rw [ringList_succ buf pos n hp]
    simp only [scanTerm, List.any_cons]
    rw [if_neg hne]
    cases hterm : isTermB (buf pos) with
    | true => simp [hterm]
    | false =>
      simp only [hterm, Bool.false_or]
      have hp2 : (pos + 1) % USB_RX_BUFFER_SIZE < USB_RX_BUFFER_SIZE := by
        unfold USB_RX_BUFFER_SIZE
        omega
      have hd2 : ringDist ((pos + 1) % USB_RX_BUFFER_SIZE) head = n := by
        have := ringDist_succ hp hh hne
        omega
      exact ih ((pos + 1) % USB_RX_BUFFER_SIZE) k hp2 hd2 (by omega)

theorem skipTerms_spec (buf : Nat → Nat) (head : Nat) (hh : head < USB_RX_BUFFER_SIZE) :
    ∀ n tail fuel, tail < USB_RX_BUFFER_SIZE → ringDist tail head = n → n ≤ fuel →
      skipTerms buf head tail fuel < USB_RX_BUFFER_SIZE ∧
      ringList buf (skipTerms buf head tail fuel)
          (ringDist (skipTerms buf head tail fuel) head) =
        (ringList buf tail n).dropWhile isTermB := by
  intro n
  induction n with
  | zero =>
    intro tail fuel htl hd _
    have hph : tail = head := (ringDist_zero htl hh).mp hd
    subst hph
    cases fuel <;> simp [skipTerms, ringList, hd, htl]
  | succ n ih =>
    intro tail fuel htl hd hf
    have hne : tail ≠ head := by
      intro hcontra
      rw [(ringDist_zero htl hh).mpr hcontra] at hd
      omega
    obtain ⟨k, rfl⟩ : ∃ k, fuel = k + 1 := ⟨fuel - 1, by omega⟩
    rw [ringList_succ buf tail n htl]
    simp only [skipTerms]
    rw [if_neg hne]
    have ht2 : (tail + 1) % USB_RX_BUFFER_SIZE < USB_RX_BUFFER_SIZE := by
      unfold USB_RX_BUFFER_SIZE
      omega
    have hd2 : ringDist ((tail + 1) % USB_RX_BUFFER_SIZE) head = n := by
      have := ringDist_succ htl hh hne
      omega
    cases hterm : isTermB (buf tail) with
    | true =>
      simp only [hterm, List.dropWhile_cons_of_pos]
      exact ih ((tail + 1) % USB_RX_BUFFER_SIZE) k ht2 hd2 (by omega)
    | false =>
      simp only [hterm, Bool.false_eq_true, if_false]
      refine ⟨htl, ?_⟩
      rw [List.dropWhile_cons_of_neg (by simp [hterm])]
      rw [hd, ringList_succ buf tail n htl]

theorem readChars_spec (buf : Nat → Nat) (head : Nat) (hh : head < USB_RX_BUFFER_SIZE) :
    ∀ n tail acc fuel, tail < USB_RX_BUFFER_SIZE → ringDist tail head = n → n ≤ fuel →
      (readChars buf head tail acc fuel).1 =
        acc ++ (ringList buf tail n).takeWhile (fun x => ! isTermB x) ∧
      (readChars buf head tail acc fuel).2 < USB_RX_BUFFER_SIZE ∧
      ringList buf (readChars buf head tail acc fuel).2
          (ringDist (readChars buf head tail acc fuel).2 head) =
        ((ringList buf tail n).dropWhile (fun x => ! isTermB x)).dropWhile isTermB := by
  intro n
  induction n with
  | zero =>
    intro tail acc fuel htl hd _
    have hph : tail = head := (ringDist_zero htl hh).mp hd
    subst hph
    cases fuel <;> simp [readChars, ringList, hd, htl]
  | succ n ih =>
    intro tail acc fuel htl hd hf
    have hne : tail ≠ head := by
      intro hcontra
      rw [(ringDist_zero htl hh).mpr hcontra] at hd
      omega
    obtain ⟨k, rfl⟩ : ∃ k, fuel = k + 1 := ⟨fuel - 1, by omega⟩
    rw [ringList_succ buf tail n htl]
    simp only [readChars]
    rw [if_neg hne]
    have ht2 : (tail + 1) % USB_RX_BUFFER_SIZE < USB_RX_BUFFER_SIZE := by
      unfold USB_RX_BUFFER_SIZE
      omega
    have hd2 : ringDist ((tail + 1) % USB_RX_BUFFER_SIZE) head = n := by
      have := ringDist_succ htl hh hne
      omega
    cases hterm : isTermB (buf tail) with
    | true =>
      simp only [hterm, if_true]
      have hskip := skipTerms_spec buf head hh n ((tail + 1) % USB_RX_BUFFER_SIZE) k
        ht2 hd2 (by omega)
      refine ⟨?_, hskip.1, ?_⟩
      · simp [List.takeWhile_cons, hterm]
      · rw [List.dropWhile_cons_of_neg (by simp [hterm])]
        rw [List.dropWhile_cons_of_pos (by simp [hterm])]
        exact hskip.2
    | false =>
      simp only [hterm, Bool.false_eq_true, if_false]
      have hrec := ih ((tail + 1) % USB_RX_BUFFER_SIZE) (acc ++ [buf tail]) k ht2 hd2
        (by omega)
      refine ⟨?_, hrec.2.1, ?_⟩
      · rw [hrec.1]
        simp [List.takeWhile_cons, hterm]
      · rw [List.dropWhile_cons_of_pos (by simp [hterm])]
        exact hrec.2.2

/-- Claim C9: for the 512-byte ring buffer, a write keeps both indices in
bounds and a write into a full buffer drops exactly the oldest byte;
readLine succeeds exactly when a CR or LF is buffered, returns the bytes
before the first terminator in arrival order (wraparound included), and
consumes the entire run of consecutive terminators, leaving a well-formed
state. -/
theorem C9_ring_buffer (s : UsbHostSerialState) (b : Nat)
    (hh : s.rxHead < USB_RX_BUFFER_SIZE) (ht : s.rxTail < USB_RX_BUFFER_SIZE) :
    ((rxBufferWrite s b).rxHead < USB_RX_BUFFER_SIZE ∧
     (rxBufferWrite s b).rxTail < USB_RX_BUFFER_SIZE) ∧
    (available s = USB_RX_BUFFER_SIZE - 1 →
      contents (rxBufferWrite s b) = (contents s).drop 1 ++ [b]) ∧
    ((readLine s).1.isSome = (contents s).any isTermB) ∧
    ((contents s).any isTermB = true →
      (readLine s).1 = some ((contents s).takeWhile (fun x => ! isTermB x)) ∧
      contents (readLine s).2 =
        ((contents s).dropWhile (fun x => ! isTermB x)).dropWhile isTermB ∧
      (readLine s).2.rxHead < USB_RX_BUFFER_SIZE ∧
      (readLine s).2.rxTail < USB_RX_BUFFER_SIZE) := by
  have hwh : (rxBufferWrite s b).rxHead = (s.rxHead + 1) % USB_RX_BUFFER_SIZE := rfl
  have hwt : (rxBufferWrite s b).rxTail =
      (if (s.rxHead + 1) % USB_RX_BUFFER_SIZE = s.rxTail
        then (s.rxTail + 1) % USB_RX_BUFFER_SIZE else s.rxTail) := rfl
  have hwb : (rxBufferWrite s b).rxBuffer =
      (fun i => if i = s.rxHead then b else s.rxBuffer i) := rfl
  have hclen : ∀ x : UsbHostSerialState, (contents x).length = available x := by
    intro x
    simp [contents, ringList]
  have hn : ringDist s.rxTail s.rxHead = available s :=
    (available_eq_ringDist s hh ht).symm
  have hfuel : available s ≤ USB_RX_BUFFER_SIZE := by
    have := ringDist_lt s.rxTail s.rxHead
    omega
  have hscan : scanTerm s.rxBuffer s.rxHead s.rxTail USB_RX_BUFFER_SIZE =
      (contents s).any isTermB := by
    rw [contents]
    exact scanTerm_eq_any s.rxBuffer s.rxHead hh (available s) s.rxTail
      USB_RX_BUFFER_SIZE ht hn hfuel
  have hrc := readChars_spec s.rxBuffer s.rxHead hh (available s) s.rxTail []
    USB_RX_BUFFER_SIZE ht hn hfuel
  refine ⟨⟨?_, ?_⟩, ?_, ?_, ?_⟩
  · rw [hwh]
    unfold USB_RX_BUFFER_SIZE at *
    omega
  · rw [hwt]
    unfold USB_RX_BUFFER_SIZE at *
    split_ifs <;> omega
  · -- full-buffer write drops exactly the oldest byte
    intro hfull
    have hft : (s.rxHead + 1) % USB_RX_BUFFER_SIZE = s.rxTail := by
      unfold available at hfull
      unfold USB_RX_BUFFER_SIZE at hfull hh ht ⊢
      split_ifs at hfull <;> omega
    have hwt2 : (rxBufferWrite s b).rxTail = (s.rxTail + 1) % USB_RX_BUFFER_SIZE := by
      rw [hwt, if_pos hft]
    have havw : available (rxBufferWrite s b) = USB_RX_BUFFER_SIZE - 1 := by
      unfold available
      rw [hwh, hwt2, hft]
      unfold USB_RX_BUFFER_SIZE at *
      split_ifs <;> omega
    apply List.ext_getElem
    · rw [hclen, havw, List.length_append, List.length_drop, hclen, hfull]
      simp only [List.length_singleton]
      unfold USB_RX_BUFFER_SIZE
      omega
    · intro i h1 h2
      have hi : i < USB_RX_BUFFER_SIZE - 1 := by
        rw [hclen, havw] at h1
        exact h1
      have hL : (contents (rxBufferWrite s b))[i] =
          (rxBufferWrite s b).rxBuffer
            (((rxBufferWrite s b).rxTail + i) % USB_RX_BUFFER_SIZE) := by
        simp [contents, ringList]
      rw [hL, hwt2, hwb, Nat.mod_add_mod]
      have hdlen : ((contents s).drop 1).length = USB_RX_BUFFER_SIZE - 2 := by
        rw [List.length_drop, hclen, hfull]
        unfold USB_RX_BUFFER_SIZE
        omega
      by_cases hcase : i < ((contents s).drop 1).length
      · rw [List.getElem_append_left hcase, List.getElem_drop]
        rw [hdlen] at hcase
        have hb1 : 1 + i < (contents s).length := by
          rw [hclen, hfull]
          unfold USB_RX_BUFFER_SIZE at *
          omega
        have hR : (contents s)[1 + i] =
            s.rxBuffer ((s.rxTail + (1 + i)) % USB_RX_BUFFER_SIZE) := by
          simp [contents, ringList]
        rw [hR]
        have hne : (s.rxTail + 1 + i) % USB_RX_BUFFER_SIZE ≠ s.rxHead := by
          unfold USB_RX_BUFFER_SIZE at *
          omega
        simp only [hne, if_false]
        congr 1
        unfold USB_RX_BUFFER_SIZE at *
        omega
      · rw [List.getElem_append_right (Nat.le_of_not_lt hcase)]
        rw [List.getElem_singleton]
        rw [hdlen] at hcase
        have hhead : (s.rxTail + 1 + i) % USB_RX_BUFFER_SIZE = s.rxHead := by
          unfold USB_RX_BUFFER_SIZE at *
          omega
        simp [hhead]
  · -- readLine returns a line exactly when a terminator is buffered
    simp only [readLine, hscan]
    cases hany : (contents s).any isTermB <;> simp [hany]
  · intro hany
    simp only [readLine, hscan, hany, if_true]
    refine ⟨?_, ?_, ?_, ?_⟩
    · rw [contents] at hany ⊢
      simp [hrc.1]
    · have havx : available { s with
          rxTail := (readChars s.rxBuffer s.rxHead s.rxTail [] USB_RX_BUFFER_SIZE).2 } =
          ringDist (readChars s.rxBuffer s.rxHead s.rxTail [] USB_RX_BUFFER_SIZE).2
            s.rxHead := by
        exact available_eq_ringDist _ hh hrc.2.1
      show contents _ = _
      rw [contents]
      simp only [havx]
      exact hrc.2.2
    · exact hh
    · exact hrc.2.1

/-- Witness for C9: the ring-buffer properties evaluated on a concrete full buffer. -/
theorem C9_ring_buffer_witness :
    ((rxBufferWrite usbFullState 66).rxHead < USB_RX_BUFFER_SIZE ∧
     (rxBufferWrite usbFullState 66).rxTail < USB_RX_BUFFER_SIZE) ∧
    (available usbFullState = USB_RX_BUFFER_SIZE - 1 →
      contents (rxBufferWrite usbFullState 66) =
        (contents usbFullState).drop 1 ++ [66]) ∧
    ((readLine usbFullState).1.isSome = (contents usbFullState).any isTermB) ∧
    ((contents usbFullState).any isTermB = true →
      (readLine usbFullState).1 =
        some ((contents usbFullState).takeWhile (fun x => ! isTermB x)) ∧
      contents (readLine usbFullState).2 =
        ((contents usbFullState).dropWhile (fun x => ! isTermB x)).dropWhile isTermB ∧
      (readLine usbFullState).2.rxHead < USB_RX_BUFFER_SIZE ∧
      (readLine usbFullState).2.rxTail < USB_RX_BUFFER_SIZE) :=
  C9_ring_buffer usbFullState 66 (by decide) (by decide)
